import Mathlib

/-!
Shallow embedding of the viewport controller in
`src/crates/pdf_app/src/components/PdfViewer.tsx`.

Numbers are modelled as exact rationals (the source uses JS doubles).
The one non-rational computation of the source, `Math.pow(0.995, e.deltaY)`
(PdfViewer.tsx line 290), is carried as the `zoomFactor` field of the wheel
event, since real exponentiation has no executable rational form; every
theorem about the ctrl-zoom branch holds for an arbitrary factor.
-/

/-- `SvgDocument` (PdfViewer.tsx lines 3-7): page handles plus shared page
dimensions in points. -/
structure SvgDocument where
  pages : List String
  width_pt : ℚ
  height_pt : ℚ
deriving DecidableEq

/-- Container size, read fresh by `getViewport` (lines 67-73). -/
structure Viewport where
  width : ℚ
  height : ℚ
deriving DecidableEq

/-- A 2-d translate `{x, y}`. -/
structure Vec2 where
  x : ℚ
  y : ℚ
deriving DecidableEq

/-- Result of `getOverflowState` (lines 76-110). -/
structure OverflowState where
  canPanUp : Bool
  canPanDown : Bool
  canPanLeft : Bool
  canPanRight : Bool
deriving DecidableEq

/-- Result of `getFitValues` (lines 153-171). -/
structure FitValues where
  scale : ℚ
  x : ℚ
  y : ℚ
deriving DecidableEq

/-- The fields of a `WheelEvent` read by `handleWheel` (lines 270-409).
`pointerX`/`pointerY` stand for `clientX/Y` minus the container rect, and
`zoomFactor` carries the value of `Math.pow(0.995, deltaY)` (line 290). -/
structure WheelEvent where
  deltaX : ℚ
  deltaY : ℚ
  deltaMode : ℕ
  ctrlKey : Bool
  pointerX : ℚ
  pointerY : ℚ
  zoomFactor : ℚ
deriving DecidableEq

/-- The component state (lines 25-35): `currentPage`, `scale`, `translate`,
`isFitMode`, the gesture accumulator and cooldown timestamp, whether a zoom
animation is scheduled (`zoomAnimationRef.current !== null`), and the
current document prop. -/
structure ViewerState where
  currentPage : ℤ
  scale : ℚ
  translate : Vec2
  isFitMode : Bool
  pageChangeAccumulator : ℚ
  lastPageChangeTime : ℚ
  zoomAnimationActive : Bool
  svgDoc : Option SvgDocument
deriving DecidableEq

/-- Line 14. -/
def EDGE_PADDING : ℚ := 24

/-- Line 15. -/
def PAGE_CHANGE_THRESHOLD : ℚ := 20

/-- Line 16. -/
def PAGE_CHANGE_COOLDOWN : ℚ := 150

/-- Line 17. -/
def ZOOM_ANIMATION_DURATION : ℚ := 200

/-- `numPages = svgDoc?.pages.length ?? 0` (line 64). -/
def stateNumPages (s : ViewerState) : ℤ :=
  (s.svgDoc.map fun d => (d.pages.length : ℤ)).getD 0

/-- `getOverflowState` (lines 76-110). -/
def getOverflowState (currentScale : ℚ) (currentTranslate : Vec2)
    (vp : Viewport) (doc : Option SvgDocument) : OverflowState :=
  match doc with
  | none => ⟨false, false, false, false⟩
  | some doc =>
    let docWidth := doc.width_pt * currentScale
    let docHeight := doc.height_pt * currentScale
    let overflowsHorizontally := decide (docWidth > vp.width)
    let overflowsVertically := decide (docHeight > vp.height)
    let atTop := decide (currentTranslate.y ≥ EDGE_PADDING)
    let atBottom := decide (currentTranslate.y ≤ vp.height - docHeight - EDGE_PADDING)
    let atLeft := decide (currentTranslate.x ≥ EDGE_PADDING)
    let atRight := decide (currentTranslate.x ≤ vp.width - docWidth - EDGE_PADDING)
    ⟨overflowsVertically && !atTop,
     overflowsVertically && !atBottom,
     overflowsHorizontally && !atLeft,
     overflowsHorizontally && !atRight⟩

/-- `clampTranslate` (lines 113-150): per axis, center a fitting document,
otherwise clamp into the padded band. -/
def clampTranslate (x y currentScale : ℚ) (doc : Option SvgDocument)
    (vp : Viewport) : Vec2 :=
  match doc with
  | none => ⟨0, 0⟩
  | some doc =>
    let docWidth := doc.width_pt * currentScale
    let docHeight := doc.height_pt * currentScale
    let clampedX :=
      if docWidth ≤ vp.width then (vp.width - docWidth) / 2
      else min EDGE_PADDING (max (vp.width - docWidth - EDGE_PADDING) x)
    let clampedY :=
      if docHeight ≤ vp.height then (vp.height - docHeight) / 2
      else min EDGE_PADDING (max (vp.height - docHeight - EDGE_PADDING) y)
    ⟨clampedX, clampedY⟩

/-- `getFitValues` (lines 153-171): null when the document is absent or the
viewport has a zero dimension; otherwise the fit scale and centering
translate. -/
def getFitValues (doc : Option SvgDocument) (vp : Viewport) : Option FitValues :=
  match doc with
  | none => none
  | some doc =>
    if vp.width = 0 ∨ vp.height = 0 then none
    else
      let padding := EDGE_PADDING * 2
      let scaleX := (vp.width - padding) / doc.width_pt
      let scaleY := (vp.height - padding) / doc.height_pt
      let newScale := min scaleX scaleY
      let docWidth := doc.width_pt * newScale
      let docHeight := doc.height_pt * newScale
      some ⟨newScale, (vp.width - docWidth) / 2, (vp.height - docHeight) / 2⟩

/-- `fitToViewport` (lines 174-180): apply the fit values when present,
otherwise leave the state unchanged. -/
def fitToViewport (vp : Viewport) (s : ViewerState) : ViewerState :=
  match getFitValues s.svgDoc vp with
  | none => s
  | some fit => { s with scale := fit.scale, translate := ⟨fit.x, fit.y⟩ }

/-- One committed frame of `animate` inside `animateZoom` (lines 200-219):
clamped progress, ease-out-cubic, linear interpolation of scale and both
translate components. Returns the committed `(scale, translate)`. -/
def animFrame (startScale : ℚ) (start : Vec2) (targetScale : ℚ) (target : Vec2)
    (elapsed duration : ℚ) : ℚ × Vec2 :=
  let progress := min (elapsed / duration) 1
  let eased := 1 - (1 - progress) ^ 3
  ⟨startScale + (targetScale - startScale) * eased,
   ⟨start.x + (target.x - start.x) * eased,
    start.y + (target.y - start.y) * eased⟩⟩

/-- The page-navigation else-branch of `handleWheel` (lines 342-407):
discrete wheel clicks step immediately under a cooldown; continuous deltas
accumulate against a threshold, with edge repositioning on a committed
continuous turn. -/
def pageTurn (vp : Viewport) (now : ℚ) (e : WheelEvent) (s : ViewerState) :
    ViewerState :=
  let numPages : ℤ := (s.svgDoc.map fun d => (d.pages.length : ℤ)).getD 1
  let current := s.currentPage
  if e.deltaMode = 1 then
    if now - s.lastPageChangeTime > PAGE_CHANGE_COOLDOWN then
      let direction : ℤ := if 0 < e.deltaY then 1 else -1
      let newPage := current + direction
      if 1 ≤ newPage ∧ newPage ≤ numPages then
        { s with lastPageChangeTime := now, currentPage := newPage }
      else s
    else s
  else
    let acc := s.pageChangeAccumulator + e.deltaY
    if |acc| ≥ PAGE_CHANGE_THRESHOLD ∧
        now - s.lastPageChangeTime > PAGE_CHANGE_COOLDOWN then
      let direction : ℤ := if 0 < acc then 1 else -1
      let newPage := current + direction
      if 1 ≤ newPage ∧ newPage ≤ numPages then
        let s1 := { s with lastPageChangeTime := now, pageChangeAccumulator := 0,
                           currentPage := newPage }
        match s.svgDoc with
        | some doc =>
          let docHeight := doc.height_pt * s.scale
          if docHeight > vp.height then
            if 0 < direction then
              { s1 with translate :=
                  clampTranslate s1.translate.x EDGE_PADDING s.scale s.svgDoc vp }
            else
              { s1 with translate :=
                  (clampTranslate s1.translate.x
                    (vp.height - docHeight - EDGE_PADDING) s.scale s.svgDoc vp) }
          else s1
        | none => s1
      else { s with pageChangeAccumulator := 0 }
    else { s with pageChangeAccumulator := acc }

/-- `handleWheel` (lines 270-409). The ctrl branch clears fit mode, cancels
any scheduled animation, zooms toward the pointer with scale clamped to
`[0.1, 4]`, and commits the clamped translate. The other branch pans when
the overflow state allows it (vertical pans reset the accumulator) and
otherwise falls through to page navigation. -/
def handleWheel (vp : Viewport) (now : ℚ) (e : WheelEvent) (s : ViewerState) :
    ViewerState :=
  if e.ctrlKey then
    let currentScale := s.scale
    let currentTranslate := s.translate
    let newScale := min 4 (max (1/10) (currentScale * e.zoomFactor))
    let scaleRatio := newScale / currentScale
    let newX := e.pointerX - (e.pointerX - currentTranslate.x) * scaleRatio
    let newY := e.pointerY - (e.pointerY - currentTranslate.y) * scaleRatio
    let clamped := clampTranslate newX newY newScale s.svgDoc vp
    { s with isFitMode := false, zoomAnimationActive := false,
             scale := newScale, translate := clamped }
  else
    let currentScale := s.scale
    let currentTranslate := s.translate
    let overflow := getOverflowState currentScale currentTranslate vp s.svgDoc
    let mult : ℚ := if e.deltaMode = 1 then 20 else 1
    let hPan : Bool := decide (e.deltaX ≠ 0) &&
      (decide (0 < e.deltaX) && overflow.canPanRight ||
       decide (e.deltaX < 0) && overflow.canPanLeft)
    let vPan : Bool := decide (e.deltaY ≠ 0) &&
      (decide (0 < e.deltaY) && overflow.canPanDown ||
       decide (e.deltaY < 0) && overflow.canPanUp)
    let newX := if hPan then currentTranslate.x - e.deltaX * mult
                else currentTranslate.x
    let newY := if vPan then currentTranslate.y - e.deltaY * mult
                else currentTranslate.y
    let acc0 := if vPan then 0 else s.pageChangeAccumulator
    if hPan || vPan then
      { s with translate := clampTranslate newX newY currentScale s.svgDoc vp,
               pageChangeAccumulator := acc0 }
    else if e.deltaY ≠ 0 then
      pageTurn vp now e s
    else s

/-- The dragging body of `handlePointerMove` (lines 431-444): add the raw
pointer delta and commit the clamped translate. No animation bookkeeping is
touched. -/
def handlePointerMove (vp : Viewport) (dx dy : ℚ) (s : ViewerState) :
    ViewerState :=
  let newX := s.translate.x + dx
  let newY := s.translate.y + dy
  { s with translate := clampTranslate newX newY s.scale s.svgDoc vp }

/-- `goToPrevPage` (lines 464-466). -/
def goToPrevPage (s : ViewerState) : ViewerState :=
  { s with currentPage := max (s.currentPage - 1) 1 }

/-- `goToNextPage` (lines 468-472): clamp against `pages.length ?? 1`. -/
def goToNextPage (s : ViewerState) : ViewerState :=
  let numPages : ℤ := (s.svgDoc.map fun d => (d.pages.length : ℤ)).getD 1
  { s with currentPage := min (s.currentPage + 1) numPages }

/-- The Home key handler (lines 543-547). -/
def keyHome (s : ViewerState) : ViewerState :=
  { s with currentPage := 1 }

/-- The End key handler (lines 548-552): `pages.length ?? 1`. -/
def keyEnd (s : ViewerState) : ViewerState :=
  { s with currentPage := (s.svgDoc.map fun d => (d.pages.length : ℤ)).getD 1 }

/-- The animation target computed by `handleZoomIn` (lines 474-489):
scale multiplied by 1.25 and capped at 4, anchored at the viewport center,
then clamped. -/
def handleZoomIn (vp : Viewport) (s : ViewerState) : ℚ × Vec2 :=
  let currentScale := s.scale
  let currentTranslate := s.translate
  let newScale := min 4 (currentScale * (5/4))
  let centerX := vp.width / 2
  let centerY := vp.height / 2
  let scaleRatio := newScale / currentScale
  let newX := centerX - (centerX - currentTranslate.x) * scaleRatio
  let newY := centerY - (centerY - currentTranslate.y) * scaleRatio
  ⟨newScale, clampTranslate newX newY newScale s.svgDoc vp⟩

/-- The animation target computed by `handleZoomOut` (lines 491-506). -/
def handleZoomOut (vp : Viewport) (s : ViewerState) : ℚ × Vec2 :=
  let currentScale := s.scale
  let currentTranslate := s.translate
  let newScale := max (1/10) (currentScale / (5/4))
  let centerX := vp.width / 2
  let centerY := vp.height / 2
  let scaleRatio := newScale / currentScale
  let newX := centerX - (centerX - currentTranslate.x) * scaleRatio
  let newY := centerY - (centerY - currentTranslate.y) * scaleRatio
  ⟨newScale, clampTranslate newX newY newScale s.svgDoc vp⟩

/-- The resize-observer branch for `isFitMode = false` (lines 248-257):
re-clamp the current translate at the unchanged scale. -/
def resizeReclamp (vp : Viewport) (s : ViewerState) : ViewerState :=
  { s with translate :=
      clampTranslate s.translate.x s.translate.y s.scale s.svgDoc vp }

/-- Supplying a new document prop together with the page-reset effect
(lines 227-231): reset to page 1 when the current page exceeds a positive
new page count. -/
def resetPageOnDocChange (s : ViewerState) (newDoc : Option SvgDocument) :
    ViewerState :=
  let s' := { s with svgDoc := newDoc }
  let numPages : ℤ := (newDoc.map fun d => (d.pages.length : ℤ)).getD 0
  if s'.currentPage > numPages ∧ numPages > 0 then { s' with currentPage := 1 }
  else s'

/-- Initial component state (lines 25-35): page 1, scale 1, origin translate,
fit mode on, empty accumulator, no scheduled animation, no document. -/
def initState : ViewerState :=
  { currentPage := 1, scale := 1, translate := ⟨0, 0⟩, isFitMode := true,
    pageChangeAccumulator := 0, lastPageChangeTime := 0,
    zoomAnimationActive := false, svgDoc := none }

/-- One externally triggered transition of the component: a wheel event, a
pointer drag move, the page buttons, the Home and End keys, an applied fit
(initial load, resize in fit mode, or keyboard fit), a resize re-clamp, an
animation-frame commit of scale and translate (the `animate` callback of
lines 200-219 writes only those two pieces of state; its committed values
are over-approximated as arbitrary), and a document change together with
its page-reset effect.  The `docChange` constructor carries the proviso
that a supplied document has at least one page. -/
inductive Step : ViewerState → ViewerState → Prop where
  | wheel (vp : Viewport) (now : ℚ) (e : WheelEvent) (s : ViewerState) :
      Step s (handleWheel vp now e s)
  | pointerMove (vp : Viewport) (dx dy : ℚ) (s : ViewerState) :
      Step s (handlePointerMove vp dx dy s)
  | prevPage (s : ViewerState) : Step s (goToPrevPage s)
  | nextPage (s : ViewerState) : Step s (goToNextPage s)
  | homeKey (s : ViewerState) : Step s (keyHome s)
  | endKey (s : ViewerState) : Step s (keyEnd s)
  | fitApply (vp : Viewport) (s : ViewerState) : Step s (fitToViewport vp s)
  | reclamp (vp : Viewport) (s : ViewerState) : Step s (resizeReclamp vp s)
  | animCommit (sc : ℚ) (t : Vec2) (s : ViewerState) :
      Step s { s with scale := sc, translate := t }
  | docChange (d : Option SvgDocument) (s : ViewerState)
      (hd : ∀ dd, d = some dd → dd.pages ≠ []) :
      Step s (resetPageOnDocChange s d)

/-- States reachable from the initial state by the transitions above, every
supplied document nonempty. -/
def Reachable (s : ViewerState) : Prop :=
  Relation.ReflTransGen Step initState s

/-! ## Helper lemmas -/

lemma clamp_band_mem (lo hi v : ℚ) (h : lo ≤ hi) :
    lo ≤ min hi (max lo v) ∧ min hi (max lo v) ≤ hi :=
  ⟨le_min h (le_max_left _ _), min_le_left _ _⟩

lemma clamp_band_fix (lo hi v : ℚ) (h1 : lo ≤ v) (h2 : v ≤ hi) :
    min hi (max lo v) = v := by
  rw [max_eq_right h1, min_eq_right h2]

/-- `clampTranslate` is idempotent at a fixed scale, document and viewport. -/
lemma clampTranslate_idem (x y sc : ℚ) (doc : Option SvgDocument) (vp : Viewport) :
    clampTranslate (clampTranslate x y sc doc vp).x
      (clampTranslate x y sc doc vp).y sc doc vp = clampTranslate x y sc doc vp := by
  cases doc with
  | none => rfl
  | some d =>
    simp only [clampTranslate]
    refine congrArg₂ Vec2.mk ?_ ?_
    · by_cases hw : d.width_pt * sc ≤ vp.width
      · simp [hw]
      · simp only [if_neg hw]
        push_neg at hw
        have hlohi : vp.width - d.width_pt * sc - EDGE_PADDING ≤ EDGE_PADDING := by
          unfold EDGE_PADDING; linarith
        obtain ⟨hb1, hb2⟩ := clamp_band_mem
          (vp.width - d.width_pt * sc - EDGE_PADDING) EDGE_PADDING x hlohi
        exact clamp_band_fix _ _ _ hb1 hb2
    · by_cases hh : d.height_pt * sc ≤ vp.height
      · simp [hh]
      · simp only [if_neg hh]
        push_neg at hh
        have hlohi : vp.height - d.height_pt * sc - EDGE_PADDING ≤ EDGE_PADDING := by
          unfold EDGE_PADDING; linarith
        obtain ⟨hb1, hb2⟩ := clamp_band_mem
          (vp.height - d.height_pt * sc - EDGE_PADDING) EDGE_PADDING y hlohi
        exact clamp_band_fix _ _ _ hb1 hb2

/-! ## C3 -/

/-- C3: for every document, viewport, scale in [0.1, 4] and input (x, y),
`clampTranslate` per axis returns the centering value
`(viewportDimension - docDimension) / 2` when the scaled document dimension
is at most the viewport dimension, and otherwise
`min EDGE_PADDING (max (viewportDimension - docDimension - EDGE_PADDING) value)`,
which lies within `[viewportDim - docDim - EDGE_PADDING, EDGE_PADDING]`. -/
theorem claim_C3 (d : SvgDocument) (vp : Viewport) (sc x y : ℚ)
    (h1 : 1/10 ≤ sc) (h2 : sc ≤ 4) :
    ((d.width_pt * sc ≤ vp.width →
        (clampTranslate x y sc (some d) vp).x = (vp.width - d.width_pt * sc) / 2) ∧
     (¬ d.width_pt * sc ≤ vp.width →
        (clampTranslate x y sc (some d) vp).x =
          min EDGE_PADDING (max (vp.width - d.width_pt * sc - EDGE_PADDING) x) ∧
        vp.width - d.width_pt * sc - EDGE_PADDING ≤ (clampTranslate x y sc (some d) vp).x ∧
        (clampTranslate x y sc (some d) vp).x ≤ EDGE_PADDING)) ∧
    ((d.height_pt * sc ≤ vp.height →
        (clampTranslate x y sc (some d) vp).y = (vp.height - d.height_pt * sc) / 2) ∧
     (¬ d.height_pt * sc ≤ vp.height →
        (clampTranslate x y sc (some d) vp).y =
          min EDGE_PADDING (max (vp.height - d.height_pt * sc - EDGE_PADDING) y) ∧
        vp.height - d.height_pt * sc - EDGE_PADDING ≤ (clampTranslate x y sc (some d) vp).y ∧
        (clampTranslate x y sc (some d) vp).y ≤ EDGE_PADDING)) := by
  refine ⟨⟨fun hw => ?_, fun hw => ?_⟩, fun hh => ?_, fun hh => ?_⟩
  · simp [clampTranslate, hw]
  · have hx : (clampTranslate x y sc (some d) vp).x =
        min EDGE_PADDING (max (vp.width - d.width_pt * sc - EDGE_PADDING) x) := by
      simp [clampTranslate, hw]
    push_neg at hw
    have hlohi : vp.width - d.width_pt * sc - EDGE_PADDING ≤ EDGE_PADDING := by
      unfold EDGE_PADDING; linarith
    obtain ⟨hb1, hb2⟩ := clamp_band_mem
      (vp.width - d.width_pt * sc - EDGE_PADDING) EDGE_PADDING x hlohi
    exact ⟨hx, hx ▸ hb1, hx ▸ hb2⟩
  · simp [clampTranslate, hh]
  · have hy : (clampTranslate x y sc (some d) vp).y =
        min EDGE_PADDING (max (vp.height - d.height_pt * sc - EDGE_PADDING) y) := by
      simp [clampTranslate, hh]
    push_neg at hh
    have hlohi : vp.height - d.height_pt * sc - EDGE_PADDING ≤ EDGE_PADDING := by
      unfold EDGE_PADDING; linarith
    obtain ⟨hb1, hb2⟩ := clamp_band_mem
      (vp.height - d.height_pt * sc - EDGE_PADDING) EDGE_PADDING y hlohi
    exact ⟨hy, hy ▸ hb1, hy ▸ hb2⟩

/-- Witness for C3 at a 100x100 document, 200x200 viewport, scale 1,
input (5, 7): the document fits, so the x-result centers it. -/
theorem claim_C3_w :
    (clampTranslate 5 7 1 (some ⟨["p"], 100, 100⟩) ⟨200, 200⟩).x =
      ((200 : ℚ) - 100 * 1) / 2 :=
  (claim_C3 ⟨["p"], 100, 100⟩ ⟨200, 200⟩ 1 5 7 (by norm_num) (by norm_num)).1.1
    (by norm_num)

/-! ## C10 -/

/-- C10: when the supplied document changes, if the current page exceeds the
new positive page count, the page is set to 1 (not clamped to numPages);
if it is still within range, it is left unchanged. -/
theorem claim_C10 (s : ViewerState) (d : Option SvgDocument) :
    ((0 < (d.map fun dd => (dd.pages.length : ℤ)).getD 0 →
      (d.map fun dd => (dd.pages.length : ℤ)).getD 0 < s.currentPage →
      (resetPageOnDocChange s d).currentPage = 1)) ∧
    (s.currentPage ≤ (d.map fun dd => (dd.pages.length : ℤ)).getD 0 →
      (resetPageOnDocChange s d).currentPage = s.currentPage) := by
  constructor
  · intro h1 h2
    simp only [resetPageOnDocChange]
    rw [if_pos ⟨h2, h1⟩]
  · intro h
    simp only [resetPageOnDocChange]
    rw [if_neg]
    intro hc
    exact absurd h (not_le.mpr hc.1)

/-- Witness for C10: a one-page document replacing a state on page 5 resets
the page to 1, and a state on page 1 is left on page 1. -/
theorem claim_C10_w :
    (resetPageOnDocChange { initState with currentPage := 5 }
        (some ⟨["a"], 100, 100⟩)).currentPage = 1 ∧
    (resetPageOnDocChange initState (some ⟨["a"], 100, 100⟩)).currentPage =
      initState.currentPage :=
  ⟨(claim_C10 { initState with currentPage := 5 } (some ⟨["a"], 100, 100⟩)).1
      (by norm_num) (by norm_num [initState]),
   (claim_C10 initState (some ⟨["a"], 100, 100⟩)).2 (by norm_num [initState])⟩

/-- The translate produced by `getFitValues` centers a document that fits,
so it is a fixed point of `clampTranslate` at the fit scale. -/
lemma fit_center_fix (d : SvgDocument) (vp : Viewport) (f : FitValues)
    (hw : 0 < d.width_pt) (hh : 0 < d.height_pt)
    (hf : getFitValues (some d) vp = some f) :
    clampTranslate f.x f.y f.scale (some d) vp = ⟨f.x, f.y⟩ := by
  simp only [getFitValues] at hf
  split_ifs at hf with hz
  case _ =>
    rw [Option.some.injEq] at hf
    subst hf
    have hsx : d.width_pt *
        min ((vp.width - EDGE_PADDING * 2) / d.width_pt)
          ((vp.height - EDGE_PADDING * 2) / d.height_pt) ≤ vp.width := by
      calc d.width_pt * min ((vp.width - EDGE_PADDING * 2) / d.width_pt)
              ((vp.height - EDGE_PADDING * 2) / d.height_pt)
          ≤ d.width_pt * ((vp.width - EDGE_PADDING * 2) / d.width_pt) :=
            mul_le_mul_of_nonneg_left (min_le_left _ _) hw.le
        _ = vp.width - EDGE_PADDING * 2 := by
            rw [mul_div_assoc']
            exact mul_div_cancel_left₀ _ (ne_of_gt hw)
        _ ≤ vp.width := by unfold EDGE_PADDING; linarith
    have hsy : d.height_pt *
        min ((vp.width - EDGE_PADDING * 2) / d.width_pt)
          ((vp.height - EDGE_PADDING * 2) / d.height_pt) ≤ vp.height := by
      calc d.height_pt * min ((vp.width - EDGE_PADDING * 2) / d.width_pt)
              ((vp.height - EDGE_PADDING * 2) / d.height_pt)
          ≤ d.height_pt * ((vp.height - EDGE_PADDING * 2) / d.height_pt) :=
            mul_le_mul_of_nonneg_left (min_le_right _ _) hh.le
        _ = vp.height - EDGE_PADDING * 2 := by
            rw [mul_div_assoc']
            exact mul_div_cancel_left₀ _ (ne_of_gt hh)
        _ ≤ vp.height := by unfold EDGE_PADDING; linarith
    simp [clampTranslate, hsx, hsy]

/-! ## C4 -/

/-- C4 counterexample: for a 612x792 pt document in an 800x600 viewport,
`getFitValues` yields x = 2054/11 (about 186.7), more than 80 points away
from the claimed x of about 97.7 (scale 23/33 and y = 24 are as claimed). -/
theorem claim_C4_cex :
    getFitValues (some ⟨["p"], 612, 792⟩) ⟨800, 600⟩ =
      some ⟨23/33, 2054/11, 24⟩ ∧
    (80 : ℚ) < 2054/11 - 977/10 := by
  constructor
  · norm_num [getFitValues, EDGE_PADDING, min_def]
  · norm_num

/-- C4 (amended): with a document supplied, `computeFit` returns null exactly
when the viewport area is zero, and callers then leave the state unchanged;
otherwise it returns scale = min((vw - 2 EDGE_PADDING)/docW,
(vh - 2 EDGE_PADDING)/docH) and the centering translate — so for a 612x792 pt
document in an 800x600 viewport: scale = 23/33 (about 0.697), x = 2054/11
(about 186.7, not about 97.7), y = 24. -/
theorem claim_C4 (d : SvgDocument) (vp : Viewport) (s : ViewerState) :
    (getFitValues (some d) vp = none ↔ vp.width * vp.height = 0) ∧
    (getFitValues s.svgDoc vp = none → fitToViewport vp s = s) ∧
    (vp.width ≠ 0 → vp.height ≠ 0 →
      getFitValues (some d) vp =
        some ⟨min ((vp.width - EDGE_PADDING * 2) / d.width_pt)
                ((vp.height - EDGE_PADDING * 2) / d.height_pt),
              (vp.width - d.width_pt *
                min ((vp.width - EDGE_PADDING * 2) / d.width_pt)
                  ((vp.height - EDGE_PADDING * 2) / d.height_pt)) / 2,
              (vp.height - d.height_pt *
                min ((vp.width - EDGE_PADDING * 2) / d.width_pt)
                  ((vp.height - EDGE_PADDING * 2) / d.height_pt)) / 2⟩) ∧
    getFitValues (some ⟨["p"], 612, 792⟩) ⟨800, 600⟩ =
      some ⟨23/33, 2054/11, 24⟩ := by
  refine ⟨?_, ?_, ?_, ?_⟩
  · simp only [getFitValues]
    split_ifs with h
    · exact iff_of_true rfl (mul_eq_zero.mpr h)
    · push_neg at h
      exact iff_of_false (by simp) (by simp [mul_eq_zero, h.1, h.2])
  · intro h
    simp [fitToViewport, h]
  · intro hw hh
    simp [getFitValues, hw, hh]
  · norm_num [getFitValues, EDGE_PADDING, min_def]

/-- Witness for C4: a zero-width viewport makes the fit null and leaves the
state unchanged. -/
theorem claim_C4_w :
    fitToViewport ⟨0, 600⟩ { initState with svgDoc := some ⟨["p"], 612, 792⟩ } =
      { initState with svgDoc := some ⟨["p"], 612, 792⟩ } :=
  (claim_C4 ⟨["p"], 612, 792⟩ ⟨0, 600⟩
      { initState with svgDoc := some ⟨["p"], 612, 792⟩ }).2.1
    (by norm_num [getFitValues, initState])

/-- Linear interpolation with a coefficient in [0, 1] stays inside any
interval containing both endpoints. -/
lemma interp_mem (lo hi a b t : ℚ) (ha1 : lo ≤ a) (ha2 : a ≤ hi)
    (hb1 : lo ≤ b) (hb2 : b ≤ hi) (ht0 : 0 ≤ t) (ht1 : t ≤ 1) :
    lo ≤ a + (b - a) * t ∧ a + (b - a) * t ≤ hi := by
  constructor <;> nlinarith

/-- The ease-out-cubic of a clamped progress lies in [0, 1]. -/
lemma eased_mem (elapsed duration : ℚ) (he : 0 ≤ elapsed) (hd : 0 < duration) :
    0 ≤ 1 - (1 - min (elapsed / duration) 1) ^ 3 ∧
    1 - (1 - min (elapsed / duration) 1) ^ 3 ≤ 1 := by
  have hp0 : 0 ≤ min (elapsed / duration) 1 :=
    le_min (div_nonneg he hd.le) zero_le_one
  have hp1 : min (elapsed / duration) 1 ≤ 1 := min_le_right _ _
  have h30 : 0 ≤ (1 - min (elapsed / duration) 1) ^ 3 :=
    pow_nonneg (by linarith) 3
  have h31 : (1 - min (elapsed / duration) 1) ^ 3 ≤ 1 :=
    pow_le_one₀ (by linarith) (by linarith)
  exact ⟨by linarith, by linarith⟩

/-- `pageTurn` never writes scale, the document, fit mode, the animation
flag, or the translate outside its two reposition branches; in particular
the first four are always preserved. -/
lemma pageTurn_fields (vp : Viewport) (now : ℚ) (e : WheelEvent)
    (s : ViewerState) :
    (pageTurn vp now e s).scale = s.scale ∧
    (pageTurn vp now e s).svgDoc = s.svgDoc ∧
    (pageTurn vp now e s).zoomAnimationActive = s.zoomAnimationActive ∧
    (pageTurn vp now e s).isFitMode = s.isFitMode := by
  rcases hsd : s.svgDoc with _ | dd <;>
    simp only [pageTurn, hsd] <;>
    split_ifs <;>
    simp_all

/-! ## C2 -/

/-- C2 counterexample: fit-to-viewport writes scale unclamped.  A 100x100 pt
document in a 1000x1000 viewport commits scale 238/25 = 9.52, outside
[0.1, 4.0]. -/
theorem claim_C2_cex :
    (fitToViewport ⟨1000, 1000⟩
        { initState with svgDoc := some ⟨["p"], 100, 100⟩ }).scale = 238/25 ∧
    ¬ ((238 : ℚ)/25 ≤ 4) := by
  constructor
  · norm_num [fitToViewport, getFitValues, initState, EDGE_PADDING]
  · norm_num

/-- C2 (amended): ctrl-wheel zoom always commits a scale in [0.1, 4.0];
zoomIn and zoomOut targets stay in [0.1, 4.0] when the current scale is;
non-ctrl wheel events never write scale; animation frames between two
scales in [0.1, 4.0] stay in [0.1, 4.0].  Fit-to-viewport, however, commits
`min((vw - 2 EDGE_PADDING)/docW, (vh - 2 EDGE_PADDING)/docH)` with no clamp
and can leave [0.1, 4.0] (see the counterexample). -/
theorem claim_C2 (vp : Viewport) (now : ℚ) (e : WheelEvent) (s : ViewerState)
    (s0 s1 elapsed duration : ℚ) (st tg : Vec2) :
    (e.ctrlKey = true →
      1/10 ≤ (handleWheel vp now e s).scale ∧ (handleWheel vp now e s).scale ≤ 4) ∧
    (e.ctrlKey = false → (handleWheel vp now e s).scale = s.scale) ∧
    (1/10 ≤ s.scale → s.scale ≤ 4 →
      1/10 ≤ (handleZoomIn vp s).1 ∧ (handleZoomIn vp s).1 ≤ 4) ∧
    (1/10 ≤ s.scale → s.scale ≤ 4 →
      1/10 ≤ (handleZoomOut vp s).1 ∧ (handleZoomOut vp s).1 ≤ 4) ∧
    (1/10 ≤ s0 → s0 ≤ 4 → 1/10 ≤ s1 → s1 ≤ 4 → 0 ≤ elapsed → 0 < duration →
      1/10 ≤ (animFrame s0 st s1 tg elapsed duration).1 ∧
      (animFrame s0 st s1 tg elapsed duration).1 ≤ 4) := by
  refine ⟨fun hc => ?_, fun hc => ?_, fun ha hb => ?_, fun ha hb => ?_,
    fun h0a h0b h1a h1b he hd => ?_⟩
  · simp only [handleWheel, if_pos hc]
    exact ⟨le_min (by norm_num) (le_max_left _ _), min_le_left _ _⟩
  · simp only [handleWheel, hc, Bool.false_eq_true, if_false]
    split_ifs <;> first
      | rfl
      | exact (pageTurn_fields vp now e s).1
  · simp only [handleZoomIn]
    refine ⟨le_min (by norm_num) (by linarith), min_le_left _ _⟩
  · simp only [handleZoomOut]
    have hdiv : s.scale / (5/4) = s.scale * (4/5) := by ring
    refine ⟨le_max_left _ _, max_le (by norm_num) (by rw [hdiv]; linarith)⟩
  · simp only [animFrame]
    obtain ⟨he0, he1⟩ := eased_mem elapsed duration he hd
    exact interp_mem _ _ _ _ _ h0a h0b h1a h1b he0 he1

/-- Witness for C2: a concrete ctrl-wheel event with zoom factor 100 from
scale 1 commits a scale within [0.1, 4.0]. -/
theorem claim_C2_w :
    1/10 ≤ (handleWheel ⟨200, 200⟩ 0 ⟨0, -100, 0, true, 10, 10, 100⟩
        initState).scale ∧
    (handleWheel ⟨200, 200⟩ 0 ⟨0, -100, 0, true, 10, 10, 100⟩ initState).scale ≤ 4 :=
  (claim_C2 ⟨200, 200⟩ 0 ⟨0, -100, 0, true, 10, 10, 100⟩ initState
      0 0 0 1 ⟨0, 0⟩ ⟨0, 0⟩).1 rfl

/-- `pageTurn` keeps the translate a fixed point of `clampTranslate`: it
either leaves translate, scale and document unchanged, or commits a freshly
clamped translate at the unchanged scale and document. -/
lemma pageTurn_fix (vp : Viewport) (now : ℚ) (e : WheelEvent) (s : ViewerState)
    (h : clampTranslate s.translate.x s.translate.y s.scale s.svgDoc vp =
      s.translate) :
    clampTranslate (pageTurn vp now e s).translate.x
      (pageTurn vp now e s).translate.y (pageTurn vp now e s).scale
      (pageTurn vp now e s).svgDoc vp = (pageTurn vp now e s).translate := by
  have h' := h
  rcases hsd : s.svgDoc with _ | dd <;> rw [hsd] at h' <;>
    simp only [pageTurn, hsd] <;>
    split_ifs <;>
    first
      | exact h
      | simpa using h'
      | (rw [hsd]; exact clampTranslate_idem _ _ _ _ _)
      | simp [clampTranslate_idem]

/-- `handleWheel` preserves the translate fixed-point invariant: the ctrl
branch and the pan branch commit freshly clamped translates at the
committed scale; the page branch preserves it via `pageTurn_fix`. -/
lemma handleWheel_fix (vp : Viewport) (now : ℚ) (e : WheelEvent)
    (s : ViewerState)
    (h : clampTranslate s.translate.x s.translate.y s.scale s.svgDoc vp =
      s.translate) :
    clampTranslate (handleWheel vp now e s).translate.x
      (handleWheel vp now e s).translate.y (handleWheel vp now e s).scale
      (handleWheel vp now e s).svgDoc vp = (handleWheel vp now e s).translate := by
  by_cases hc : e.ctrlKey
  · simp only [handleWheel, if_pos hc]
    exact clampTranslate_idem _ _ _ _ _
  · simp only [handleWheel, hc, Bool.false_eq_true, if_false]
    split_ifs <;>
      first
        | exact pageTurn_fix vp now e s h
        | exact h
        | exact clampTranslate_idem _ _ _ _ _

/-! ## C1 -/

/-- C1 counterexample: from the committed state scale 4, translate (24, 24)
with a 100x100 pt document in a 200x200 viewport — a `clampTranslate` fixed
point — a fit animation targets scale 38/25, translate (24, 24); the frame
at elapsed 100 of duration 200 commits scale 183/100 and translate (24, 24),
but `clampTranslate` of (24, 24) at scale 183/100 is (17/2, 17/2): the
frame-committed state violates the invariant. -/
theorem claim_C1_cex :
    clampTranslate 24 24 4 (some ⟨["p"], 100, 100⟩) ⟨200, 200⟩ = ⟨24, 24⟩ ∧
    getFitValues (some ⟨["p"], 100, 100⟩) ⟨200, 200⟩ = some ⟨38/25, 24, 24⟩ ∧
    animFrame 4 ⟨24, 24⟩ (38/25) ⟨24, 24⟩ 100 200 = ⟨183/100, ⟨24, 24⟩⟩ ∧
    clampTranslate 24 24 (183/100) (some ⟨["p"], 100, 100⟩) ⟨200, 200⟩ ≠
      ⟨24, 24⟩ := by
  refine ⟨?_, ?_, ?_, ?_⟩
  · norm_num [clampTranslate, EDGE_PADDING, min_def, max_def]
  · norm_num [getFitValues, EDGE_PADDING, min_def]
  · norm_num [animFrame, min_def]
  · norm_num [clampTranslate, EDGE_PADDING, Vec2.mk.injEq]

/-- C1 (amended): every non-animation commit path leaves the translate a
fixed point of `clampTranslate` at the committed scale — wheel events
(zoom, pan, page-turn) preserve the invariant, pointer drags, resize
re-clamps, zoom-in/zoom-out animation targets establish it unconditionally,
and fit-to-viewport establishes it for documents with positive dimensions;
the final animation frame (elapsed at least duration) commits exactly the
animation target.  Intermediate animation frames, however, can commit
states that violate the invariant (see the counterexample). -/
theorem claim_C1 (vp : Viewport) (now : ℚ) (e : WheelEvent) (s : ViewerState)
    (dx dy s0 s1 elapsed duration : ℚ) (st tg : Vec2) :
    ((clampTranslate s.translate.x s.translate.y s.scale s.svgDoc vp =
        s.translate) →
      clampTranslate (handleWheel vp now e s).translate.x
        (handleWheel vp now e s).translate.y (handleWheel vp now e s).scale
        (handleWheel vp now e s).svgDoc vp = (handleWheel vp now e s).translate) ∧
    clampTranslate (handlePointerMove vp dx dy s).translate.x
      (handlePointerMove vp dx dy s).translate.y
      (handlePointerMove vp dx dy s).scale
      (handlePointerMove vp dx dy s).svgDoc vp =
      (handlePointerMove vp dx dy s).translate ∧
    clampTranslate (resizeReclamp vp s).translate.x
      (resizeReclamp vp s).translate.y (resizeReclamp vp s).scale
      (resizeReclamp vp s).svgDoc vp = (resizeReclamp vp s).translate ∧
    ((∀ dd, s.svgDoc = some dd → 0 < dd.width_pt ∧ 0 < dd.height_pt) →
      (clampTranslate s.translate.x s.translate.y s.scale s.svgDoc vp =
        s.translate) →
      clampTranslate (fitToViewport vp s).translate.x
        (fitToViewport vp s).translate.y (fitToViewport vp s).scale
        (fitToViewport vp s).svgDoc vp = (fitToViewport vp s).translate) ∧
    clampTranslate (handleZoomIn vp s).2.x (handleZoomIn vp s).2.y
      (handleZoomIn vp s).1 s.svgDoc vp = (handleZoomIn vp s).2 ∧
    clampTranslate (handleZoomOut vp s).2.x (handleZoomOut vp s).2.y
      (handleZoomOut vp s).1 s.svgDoc vp = (handleZoomOut vp s).2 ∧
    (duration ≤ elapsed → 0 < duration →
      (animFrame s0 st s1 tg elapsed duration).1 = s1 ∧
      (animFrame s0 st s1 tg elapsed duration).2.x = tg.x ∧
      (animFrame s0 st s1 tg elapsed duration).2.y = tg.y) := by
  refine ⟨fun h => ?_, ?_, ?_, fun hdims h => ?_, ?_, ?_, fun hde hd => ?_⟩
  · exact handleWheel_fix vp now e s h
  · simp only [handlePointerMove]
    exact clampTranslate_idem _ _ _ _ _
  · simp only [resizeReclamp]
    exact clampTranslate_idem _ _ _ _ _
  · rcases hf : getFitValues s.svgDoc vp with _ | f
    · simp only [fitToViewport, hf]
      exact h
    · rcases hsd : s.svgDoc with _ | d
      · rw [hsd] at hf
        exact absurd hf (by simp [getFitValues])
      · obtain ⟨hw, hh⟩ := hdims d hsd
        simp only [fitToViewport, hf]
        rw [hsd] at hf ⊢
        exact fit_center_fix d vp f hw hh hf
  · simp only [handleZoomIn]
    exact clampTranslate_idem _ _ _ _ _
  · simp only [handleZoomOut]
    exact clampTranslate_idem _ _ _ _ _
  · have hmin : min (elapsed / duration) 1 = 1 :=
      min_eq_right ((one_le_div hd).mpr hde)
    simp only [animFrame, hmin]
    norm_num

/-- Witness for C1: the wheel-preserves conjunct applied to the initial
state (no document, translate (0, 0), itself a fixed point) and a concrete
pan event, and the final-frame conjunct at elapsed = duration = 200. -/
theorem claim_C1_w :
    clampTranslate
      (handleWheel ⟨200, 200⟩ 0 ⟨0, 5, 0, false, 0, 0, 1⟩ initState).translate.x
      (handleWheel ⟨200, 200⟩ 0 ⟨0, 5, 0, false, 0, 0, 1⟩ initState).translate.y
      (handleWheel ⟨200, 200⟩ 0 ⟨0, 5, 0, false, 0, 0, 1⟩ initState).scale
      (handleWheel ⟨200, 200⟩ 0 ⟨0, 5, 0, false, 0, 0, 1⟩ initState).svgDoc
      ⟨200, 200⟩ =
      (handleWheel ⟨200, 200⟩ 0 ⟨0, 5, 0, false, 0, 0, 1⟩ initState).translate ∧
    (animFrame 1 ⟨0, 0⟩ 2 ⟨3, 4⟩ 200 200).1 = 2 :=
  ⟨(claim_C1 ⟨200, 200⟩ 0 ⟨0, 5, 0, false, 0, 0, 1⟩ initState
      0 0 0 0 0 1 ⟨0, 0⟩ ⟨0, 0⟩).1 (by norm_num [clampTranslate, initState]),
   ((claim_C1 ⟨200, 200⟩ 0 ⟨0, 5, 0, false, 0, 0, 1⟩ initState
      0 0 1 2 200 200 ⟨0, 0⟩ ⟨3, 4⟩).2.2.2.2.2.2 (by norm_num) (by norm_num)).1⟩

/-- When the modifier is absent, the horizontal delta is zero and vertical
panning is impossible, a wheel event with nonzero deltaY routes to page
navigation. -/
lemma handleWheel_page_route (vp : Viewport) (now : ℚ) (e : WheelEvent)
    (s : ViewerState) (hc : e.ctrlKey = false) (hdx : e.deltaX = 0)
    (hU : (getOverflowState s.scale s.translate vp s.svgDoc).canPanUp = false)
    (hD : (getOverflowState s.scale s.translate vp s.svgDoc).canPanDown = false)
    (hdy : e.deltaY ≠ 0) :
    handleWheel vp now e s = pageTurn vp now e s := by
  simp [handleWheel, hc, hdx, hU, hD, hdy]

/-- A discrete page-navigation event inside the cooldown window is a
complete no-op. -/
lemma pageTurn_cooldown_noop (vp : Viewport) (now : ℚ) (e : WheelEvent)
    (s : ViewerState) (hdm : e.deltaMode = 1)
    (h : now - s.lastPageChangeTime ≤ PAGE_CHANGE_COOLDOWN) :
    pageTurn vp now e s = s := by
  simp only [pageTurn, hdm]
  rw [if_neg (not_lt.mpr h)]
  simp

/-! ## C6 -/

/-- C6 counterexample: a discrete wheel event at the last page with the
cooldown long elapsed (now = 1000, last change at 0) is rejected at the
boundary and leaves the state — including `lastPageChangeTime` — entirely
unchanged, whereas the claim asserts the timestamp is updated whenever the
cooldown has elapsed. -/
theorem claim_C6_cex :
    handleWheel ⟨200, 200⟩ 1000 ⟨0, 3, 1, false, 0, 0, 1⟩
        { initState with svgDoc := some ⟨["p"], 100, 100⟩ } =
      { initState with svgDoc := some ⟨["p"], 100, 100⟩ } ∧
    (handleWheel ⟨200, 200⟩ 1000 ⟨0, 3, 1, false, 0, 0, 1⟩
        { initState with svgDoc := some ⟨["p"], 100, 100⟩ }).lastPageChangeTime =
      0 ∧
    (0 : ℚ) ≠ 1000 ∧
    PAGE_CHANGE_COOLDOWN < (1000 : ℚ) - 0 := by
  have h : handleWheel ⟨200, 200⟩ 1000 ⟨0, 3, 1, false, 0, 0, 1⟩
      { initState with svgDoc := some ⟨["p"], 100, 100⟩ } =
      { initState with svgDoc := some ⟨["p"], 100, 100⟩ } := by
    norm_num [handleWheel, pageTurn, getOverflowState, initState,
      EDGE_PADDING, PAGE_CHANGE_COOLDOWN]
  refine ⟨h, ?_, by norm_num, by norm_num [PAGE_CHANGE_COOLDOWN]⟩
  rw [h]
  norm_num [initState]

/-- C6 (amended): a discrete (line-mode) wheel event routed to page-turn
intent steps `currentPage` by sign(deltaY) and updates
`lastPageChangeTimestamp` when the cooldown has elapsed and the stepped
page is in [1, numPages]; when the cooldown has elapsed but the stepped
page is out of range the event is a complete no-op (the timestamp is NOT
updated); within the cooldown the event is a no-op.  Consequently two
committed events spaced more than 150 ms apart each move one page, and a
discrete page-turn within 150 ms of the recorded timestamp is a no-op. -/
theorem claim_C6 (vp : Viewport) (now : ℚ) (e : WheelEvent) (s : ViewerState)
    (hc : e.ctrlKey = false) (hdm : e.deltaMode = 1) (hdx : e.deltaX = 0)
    (hU : (getOverflowState s.scale s.translate vp s.svgDoc).canPanUp = false)
    (hD : (getOverflowState s.scale s.translate vp s.svgDoc).canPanDown = false)
    (hdy : e.deltaY ≠ 0) :
    (PAGE_CHANGE_COOLDOWN < now - s.lastPageChangeTime →
      (1 ≤ s.currentPage + (if 0 < e.deltaY then 1 else -1) ∧
        s.currentPage + (if 0 < e.deltaY then 1 else -1) ≤
          (s.svgDoc.map fun d => (d.pages.length : ℤ)).getD 1) →
      handleWheel vp now e s =
        { s with lastPageChangeTime := now,
                 currentPage := s.currentPage + (if 0 < e.deltaY then 1 else -1) }) ∧
    (PAGE_CHANGE_COOLDOWN < now - s.lastPageChangeTime →
      ¬ (1 ≤ s.currentPage + (if 0 < e.deltaY then 1 else -1) ∧
        s.currentPage + (if 0 < e.deltaY then 1 else -1) ≤
          (s.svgDoc.map fun d => (d.pages.length : ℤ)).getD 1) →
      handleWheel vp now e s = s) ∧
    (now - s.lastPageChangeTime ≤ PAGE_CHANGE_COOLDOWN →
      handleWheel vp now e s = s) ∧
    (∀ (now2 : ℚ) (e2 : WheelEvent), e2.deltaMode = 1 →
      now2 - (handleWheel vp now e s).lastPageChangeTime ≤ PAGE_CHANGE_COOLDOWN →
      pageTurn vp now2 e2 (handleWheel vp now e s) = handleWheel vp now e s) := by
  rw [handleWheel_page_route vp now e s hc hdx hU hD hdy]
  refine ⟨fun h1 h2 => ?_, fun h1 h2 => ?_, fun h1 => ?_,
    fun now2 e2 hdm2 h2 => ?_⟩
  · simp only [pageTurn, hdm]
    rw [if_pos h1, if_pos h2]
    simp
  · simp only [pageTurn, hdm]
    rw [if_pos h1, if_neg h2]
    simp
  · exact pageTurn_cooldown_noop vp now e s hdm h1
  · exact pageTurn_cooldown_noop vp now2 e2 _ hdm2 h2

/-- Witness for C6: from page 1 of a three-page document, a discrete
down-click at now = 1000 (cooldown elapsed) moves to page 2 and records the
timestamp. -/
theorem claim_C6_w :
    handleWheel ⟨200, 200⟩ 1000 ⟨0, 3, 1, false, 0, 0, 1⟩
        { initState with svgDoc := some ⟨["a", "b", "c"], 100, 100⟩ } =
      { initState with svgDoc := some ⟨["a", "b", "c"], 100, 100⟩,
                       lastPageChangeTime := 1000, currentPage := 1 + 1 } := by
  have h := (claim_C6 ⟨200, 200⟩ 1000 ⟨0, 3, 1, false, 0, 0, 1⟩
      { initState with svgDoc := some ⟨["a", "b", "c"], 100, 100⟩ }
      rfl rfl rfl
      (by norm_num [getOverflowState, initState, EDGE_PADDING])
      (by norm_num [getOverflowState, initState, EDGE_PADDING])
      (by norm_num)).1
    (by norm_num [initState, PAGE_CHANGE_COOLDOWN])
    (by norm_num [initState])
  simpa [initState] using h

/-- Continuous page navigation, committed turn: threshold met, cooldown
elapsed, candidate in range. -/
lemma pageTurn_cont_commit (vp : Viewport) (now : ℚ) (e : WheelEvent)
    (s : ViewerState) (hdm : ¬ e.deltaMode = 1)
    (hth : PAGE_CHANGE_THRESHOLD ≤ |s.pageChangeAccumulator + e.deltaY|)
    (hcd : PAGE_CHANGE_COOLDOWN < now - s.lastPageChangeTime)
    (hrange : 1 ≤ s.currentPage +
        (if 0 < s.pageChangeAccumulator + e.deltaY then 1 else -1) ∧
      s.currentPage + (if 0 < s.pageChangeAccumulator + e.deltaY then 1 else -1) ≤
        (s.svgDoc.map fun d => (d.pages.length : ℤ)).getD 1) :
    (pageTurn vp now e s).currentPage = s.currentPage +
      (if 0 < s.pageChangeAccumulator + e.deltaY then 1 else -1) ∧
    (pageTurn vp now e s).pageChangeAccumulator = 0 ∧
    (pageTurn vp now e s).lastPageChangeTime = now := by
  simp only [pageTurn, if_neg hdm]
  rw [if_pos ⟨hth, hcd⟩, if_pos hrange]
  rcases hsd : s.svgDoc with _ | doc <;> simp only [hsd] <;>
    (try split_ifs) <;> simp

/-- Continuous page navigation, boundary rejection: threshold met, cooldown
elapsed, candidate out of range — only the accumulator is cleared. -/
lemma pageTurn_cont_reject (vp : Viewport) (now : ℚ) (e : WheelEvent)
    (s : ViewerState) (hdm : ¬ e.deltaMode = 1)
    (hth : PAGE_CHANGE_THRESHOLD ≤ |s.pageChangeAccumulator + e.deltaY|)
    (hcd : PAGE_CHANGE_COOLDOWN < now - s.lastPageChangeTime)
    (hrange : ¬ (1 ≤ s.currentPage +
        (if 0 < s.pageChangeAccumulator + e.deltaY then 1 else -1) ∧
      s.currentPage + (if 0 < s.pageChangeAccumulator + e.deltaY then 1 else -1) ≤
        (s.svgDoc.map fun d => (d.pages.length : ℤ)).getD 1)) :
    pageTurn vp now e s = { s with pageChangeAccumulator := 0 } := by
  simp only [pageTurn, if_neg hdm]
  rw [if_pos ⟨hth, hcd⟩, if_neg hrange]

/-- Continuous page navigation below the threshold: only the accumulator
advances. -/
lemma pageTurn_cont_accum (vp : Viewport) (now : ℚ) (e : WheelEvent)
    (s : ViewerState) (hdm : ¬ e.deltaMode = 1)
    (hbelow : |s.pageChangeAccumulator + e.deltaY| < PAGE_CHANGE_THRESHOLD) :
    pageTurn vp now e s =
      { s with pageChangeAccumulator := s.pageChangeAccumulator + e.deltaY } := by
  simp only [pageTurn, if_neg hdm]
  rw [if_neg (fun hcon => absurd hcon.1 (not_le.mpr hbelow))]

/-- Continuous page navigation within the cooldown: only the accumulator
advances. -/
lemma pageTurn_cont_cooldown (vp : Viewport) (now : ℚ) (e : WheelEvent)
    (s : ViewerState) (hdm : ¬ e.deltaMode = 1)
    (hcd : now - s.lastPageChangeTime ≤ PAGE_CHANGE_COOLDOWN) :
    pageTurn vp now e s =
      { s with pageChangeAccumulator := s.pageChangeAccumulator + e.deltaY } := by
  simp only [pageTurn, if_neg hdm]
  rw [if_neg (fun hcon => absurd hcon.2 (not_lt.mpr hcd))]

/-- A run of continuous page-turn-intent events whose running accumulator
totals all stay below the threshold changes nothing but the accumulator,
which ends at the running total. -/
lemma contAccum_fold (vp : Viewport) (now : ℚ) (e : WheelEvent)
    (hc : e.ctrlKey = false) (hdm : e.deltaMode = 0) (hdx : e.deltaX = 0)
    (ds : List ℚ) :
    ∀ (s : ViewerState),
      (getOverflowState s.scale s.translate vp s.svgDoc).canPanUp = false →
      (getOverflowState s.scale s.translate vp s.svgDoc).canPanDown = false →
      (∀ d ∈ ds, d ≠ 0) →
      (∀ n : ℕ, |s.pageChangeAccumulator + (ds.take n).sum| <
        PAGE_CHANGE_THRESHOLD) →
      ds.foldl (fun st d => handleWheel vp now { e with deltaY := d } st) s =
        { s with pageChangeAccumulator := s.pageChangeAccumulator + ds.sum } := by
  induction ds with
  | nil =>
    intro s hU hD hne hpart
    simp
  | cons d ds ih =>
    intro s hU hD hne hpart
    have hd0 : d ≠ 0 := hne d (by simp)
    have hstep : handleWheel vp now { e with deltaY := d } s =
        { s with pageChangeAccumulator := s.pageChangeAccumulator + d } := by
      rw [handleWheel_page_route vp now _ s (by simpa using hc)
        (by simpa using hdx) hU hD (by simpa using hd0)]
      refine pageTurn_cont_accum vp now _ s (by simp [hdm]) ?_
      have h1 := hpart 1
      simpa using h1
    rw [List.foldl_cons, hstep]
    have hrec := ih { s with pageChangeAccumulator := s.pageChangeAccumulator + d }
      hU hD (fun x hx => hne x (by simp [hx]))
      (fun n => by
        have := hpart (n + 1)
        simpa [add_assoc] using this)
    rw [hrec]
    simp [add_assoc]

/-! ## C5 -/

/-- C5 counterexample: from page 1 of a three-page document that fits the
viewport (page-turn intent), the continuous deltas +30 then -20 sum to 10,
below the threshold 20, yet the first event already commits a page change:
the final page is 2, not 1. -/
theorem claim_C5_cex :
    (([30, -20] : List ℚ).foldl
        (fun st d => handleWheel ⟨200, 200⟩ 1000 ⟨0, d, 0, false, 0, 0, 1⟩ st)
        { initState with svgDoc := some ⟨["a", "b", "c"], 100, 100⟩ }).currentPage
      = 2 ∧
    |(30 : ℚ) + -20| < PAGE_CHANGE_THRESHOLD ∧
    ({ initState with
        svgDoc := some (⟨["a", "b", "c"], 100, 100⟩ : SvgDocument) } :
      ViewerState).currentPage = 1 := by
  refine ⟨?_, by norm_num [PAGE_CHANGE_THRESHOLD], by norm_num [initState]⟩
  have h1 : handleWheel ⟨200, 200⟩ 1000 ⟨0, 30, 0, false, 0, 0, 1⟩
      { initState with svgDoc := some ⟨["a", "b", "c"], 100, 100⟩ } =
      { initState with
        svgDoc := some ⟨["a", "b", "c"], 100, 100⟩,
        currentPage := 2,
        lastPageChangeTime := 1000 } := by
    norm_num [handleWheel, pageTurn, getOverflowState, initState, EDGE_PADDING,
      PAGE_CHANGE_THRESHOLD, PAGE_CHANGE_COOLDOWN]
  have h2 : handleWheel ⟨200, 200⟩ 1000 ⟨0, -20, 0, false, 0, 0, 1⟩
      { initState with
        svgDoc := some ⟨["a", "b", "c"], 100, 100⟩,
        currentPage := 2,
        lastPageChangeTime := 1000 } =
      { initState with
        svgDoc := some ⟨["a", "b", "c"], 100, 100⟩,
        currentPage := 2,
        lastPageChangeTime := 1000,
        pageChangeAccumulator := -20 } := by
    norm_num [handleWheel, pageTurn, getOverflowState, initState, EDGE_PADDING,
      PAGE_CHANGE_THRESHOLD, PAGE_CHANGE_COOLDOWN]
  simp only [List.foldl_cons, List.foldl_nil, h1, h2]

/-- C5 (amended): for a continuous (pixel-mode) wheel event routed to
page-turn intent, the event adds deltaY to the accumulator; when the new
accumulator reaches the threshold 20 in absolute value with the cooldown
elapsed and the candidate page in [1, numPages], exactly one page change is
committed, the accumulator resets to 0 and the timestamp is recorded; with
the candidate out of range only the accumulator resets to 0; below the
threshold, or within the cooldown, only the accumulator advances.  A run of
events whose running accumulator totals all stay below the threshold — in
particular same-sign deltas summing to less than the threshold starting
from an empty accumulator — changes nothing but the accumulator.  (Without
the running-total condition, mixed-sign deltas summing to less than the
threshold can still turn a page: see the counterexample.) -/
theorem claim_C5 (vp : Viewport) (now : ℚ) (e : WheelEvent) (s : ViewerState)
    (hc : e.ctrlKey = false) (hdm : e.deltaMode = 0) (hdx : e.deltaX = 0)
    (hU : (getOverflowState s.scale s.translate vp s.svgDoc).canPanUp = false)
    (hD : (getOverflowState s.scale s.translate vp s.svgDoc).canPanDown = false) :
    (e.deltaY ≠ 0 →
      PAGE_CHANGE_THRESHOLD ≤ |s.pageChangeAccumulator + e.deltaY| →
      PAGE_CHANGE_COOLDOWN < now - s.lastPageChangeTime →
      (1 ≤ s.currentPage +
          (if 0 < s.pageChangeAccumulator + e.deltaY then 1 else -1) ∧
        s.currentPage + (if 0 < s.pageChangeAccumulator + e.deltaY then 1 else -1) ≤
          (s.svgDoc.map fun d => (d.pages.length : ℤ)).getD 1) →
      (handleWheel vp now e s).currentPage = s.currentPage +
        (if 0 < s.pageChangeAccumulator + e.deltaY then 1 else -1) ∧
      (handleWheel vp now e s).pageChangeAccumulator = 0 ∧
      (handleWheel vp now e s).lastPageChangeTime = now) ∧
    (e.deltaY ≠ 0 →
      PAGE_CHANGE_THRESHOLD ≤ |s.pageChangeAccumulator + e.deltaY| →
      PAGE_CHANGE_COOLDOWN < now - s.lastPageChangeTime →
      ¬ (1 ≤ s.currentPage +
          (if 0 < s.pageChangeAccumulator + e.deltaY then 1 else -1) ∧
        s.currentPage + (if 0 < s.pageChangeAccumulator + e.deltaY then 1 else -1) ≤
          (s.svgDoc.map fun d => (d.pages.length : ℤ)).getD 1) →
      handleWheel vp now e s = { s with pageChangeAccumulator := 0 }) ∧
    (e.deltaY ≠ 0 →
      |s.pageChangeAccumulator + e.deltaY| < PAGE_CHANGE_THRESHOLD →
      handleWheel vp now e s =
        { s with pageChangeAccumulator := s.pageChangeAccumulator + e.deltaY }) ∧
    (e.deltaY ≠ 0 →
      now - s.lastPageChangeTime ≤ PAGE_CHANGE_COOLDOWN →
      handleWheel vp now e s =
        { s with pageChangeAccumulator := s.pageChangeAccumulator + e.deltaY }) ∧
    (∀ (ds : List ℚ), (∀ d ∈ ds, d ≠ 0) →
      (∀ n : ℕ, |s.pageChangeAccumulator + (ds.take n).sum| <
        PAGE_CHANGE_THRESHOLD) →
      ds.foldl (fun st d => handleWheel vp now { e with deltaY := d } st) s =
        { s with pageChangeAccumulator := s.pageChangeAccumulator + ds.sum }) := by
  have hdm1 : ¬ e.deltaMode = 1 := by simp [hdm]
  refine ⟨fun hdy h1 h2 h3 => ?_, fun hdy h1 h2 h3 => ?_, fun hdy h1 => ?_,
    fun hdy h1 => ?_, fun ds h1 h2 => ?_⟩
  · rw [handleWheel_page_route vp now e s hc hdx hU hD hdy]
    exact pageTurn_cont_commit vp now e s hdm1 h1 h2 h3
  · rw [handleWheel_page_route vp now e s hc hdx hU hD hdy]
    exact pageTurn_cont_reject vp now e s hdm1 h1 h2 h3
  · rw [handleWheel_page_route vp now e s hc hdx hU hD hdy]
    exact pageTurn_cont_accum vp now e s hdm1 h1
  · rw [handleWheel_page_route vp now e s hc hdx hU hD hdy]
    exact pageTurn_cont_cooldown vp now e s hdm1 h1
  · exact contAccum_fold vp now e hc hdm hdx ds s hU hD h1 h2

/-- Witness for C5: a single +30 delta from an empty accumulator on page 1
of three (cooldown elapsed) commits exactly one page change, resets the
accumulator and records the timestamp. -/
theorem claim_C5_w :
    (handleWheel ⟨200, 200⟩ 1000 ⟨0, 30, 0, false, 0, 0, 1⟩
        { initState with svgDoc := some ⟨["a", "b", "c"], 100, 100⟩ }).currentPage
      = 1 + 1 ∧
    (handleWheel ⟨200, 200⟩ 1000 ⟨0, 30, 0, false, 0, 0, 1⟩
        { initState with
          svgDoc := some ⟨["a", "b", "c"], 100, 100⟩ }).pageChangeAccumulator
      = 0 ∧
    (handleWheel ⟨200, 200⟩ 1000 ⟨0, 30, 0, false, 0, 0, 1⟩
        { initState with
          svgDoc := some ⟨["a", "b", "c"], 100, 100⟩ }).lastPageChangeTime
      = 1000 := by
  have h := (claim_C5 ⟨200, 200⟩ 1000 ⟨0, 30, 0, false, 0, 0, 1⟩
      { initState with svgDoc := some ⟨["a", "b", "c"], 100, 100⟩ }
      rfl rfl rfl
      (by norm_num [getOverflowState, initState, EDGE_PADDING])
      (by norm_num [getOverflowState, initState, EDGE_PADDING])).1
    (by norm_num) (by norm_num [initState, PAGE_CHANGE_THRESHOLD])
    (by norm_num [initState, PAGE_CHANGE_COOLDOWN]) (by norm_num [initState])
  simpa [initState] using h

/-! ## C7 -/

/-- C7 counterexample: a horizontal-only pan (deltaX = 10, deltaY = 0, right
pan possible) with accumulator 15 commits a pan (the translate changes) but
leaves the accumulator at 15, not 0 as the claim requires for every
committed pan. -/
theorem claim_C7_cex :
    (handleWheel ⟨200, 200⟩ 1000 ⟨10, 0, 0, false, 0, 0, 1⟩
        { initState with
          scale := 4,
          pageChangeAccumulator := 15,
          svgDoc := some ⟨["p"], 100, 100⟩ }).pageChangeAccumulator = 15 ∧
    (handleWheel ⟨200, 200⟩ 1000 ⟨10, 0, 0, false, 0, 0, 1⟩
        { initState with
          scale := 4,
          pageChangeAccumulator := 15,
          svgDoc := some ⟨["p"], 100, 100⟩ }).translate ≠
      ({ initState with
          scale := 4,
          pageChangeAccumulator := 15,
          svgDoc := some (⟨["p"], 100, 100⟩ : SvgDocument) } :
        ViewerState).translate ∧
    (15 : ℚ) ≠ 0 := by
  refine ⟨?_, ?_, by norm_num⟩ <;>
    norm_num [handleWheel, pageTurn, getOverflowState, clampTranslate,
      initState, EDGE_PADDING, Vec2.mk.injEq, min_def, max_def]

/-- C7 (amended): after a wheel event, the accumulator is zero whenever the
event committed a vertical pan, committed a continuous page-turn, or had a
continuous page-turn rejected at a boundary; a horizontal-only pan and a
committed discrete page-turn leave the accumulator unchanged. -/
theorem claim_C7 (vp : Viewport) (now : ℚ) (e : WheelEvent) (s : ViewerState)
    (hc : e.ctrlKey = false) :
    ((e.deltaY ≠ 0 →
      ((0 < e.deltaY ∧
          (getOverflowState s.scale s.translate vp s.svgDoc).canPanDown = true) ∨
        (e.deltaY < 0 ∧
          (getOverflowState s.scale s.translate vp s.svgDoc).canPanUp = true)) →
      (handleWheel vp now e s).pageChangeAccumulator = 0)) ∧
    (e.deltaY = 0 → e.deltaX ≠ 0 →
      ((0 < e.deltaX ∧
          (getOverflowState s.scale s.translate vp s.svgDoc).canPanRight = true) ∨
        (e.deltaX < 0 ∧
          (getOverflowState s.scale s.translate vp s.svgDoc).canPanLeft = true)) →
      (handleWheel vp now e s).pageChangeAccumulator =
        s.pageChangeAccumulator ∧
      (handleWheel vp now e s).translate =
        clampTranslate
          (s.translate.x - e.deltaX * (if e.deltaMode = 1 then 20 else 1))
          s.translate.y s.scale s.svgDoc vp) ∧
    (e.deltaMode = 0 → e.deltaX = 0 → e.deltaY ≠ 0 →
      (getOverflowState s.scale s.translate vp s.svgDoc).canPanUp = false →
      (getOverflowState s.scale s.translate vp s.svgDoc).canPanDown = false →
      PAGE_CHANGE_THRESHOLD ≤ |s.pageChangeAccumulator + e.deltaY| →
      PAGE_CHANGE_COOLDOWN < now - s.lastPageChangeTime →
      (handleWheel vp now e s).pageChangeAccumulator = 0) ∧
    (e.deltaMode = 1 → e.deltaX = 0 → e.deltaY ≠ 0 →
      (getOverflowState s.scale s.translate vp s.svgDoc).canPanUp = false →
      (getOverflowState s.scale s.translate vp s.svgDoc).canPanDown = false →
      (handleWheel vp now e s).pageChangeAccumulator =
        s.pageChangeAccumulator) := by
  refine ⟨fun hdy hvp => ?_, fun hdy0 hdx0 hhp => ?_,
    fun hdm hdx hdy hU hD hth hcd => ?_, fun hdm hdx hdy hU hD => ?_⟩
  · have hv : (decide (e.deltaY ≠ 0) &&
        (decide (0 < e.deltaY) &&
            (getOverflowState s.scale s.translate vp s.svgDoc).canPanDown ||
          decide (e.deltaY < 0) &&
            (getOverflowState s.scale s.translate vp s.svgDoc).canPanUp)) =
        true := by
      rcases hvp with ⟨h1, h2⟩ | ⟨h1, h2⟩ <;> simp [hdy, h1, h2]
    simp only [handleWheel, hc, Bool.false_eq_true, if_false]
    rw [hv]
    simp
  · have hh : (decide (e.deltaX ≠ 0) &&
        (decide (0 < e.deltaX) &&
            (getOverflowState s.scale s.translate vp s.svgDoc).canPanRight ||
          decide (e.deltaX < 0) &&
            (getOverflowState s.scale s.translate vp s.svgDoc).canPanLeft)) =
        true := by
      rcases hhp with ⟨h1, h2⟩ | ⟨h1, h2⟩ <;> simp [hdx0, h1, h2]
    have hv0 : (decide (e.deltaY ≠ 0) &&
        (decide (0 < e.deltaY) &&
            (getOverflowState s.scale s.translate vp s.svgDoc).canPanDown ||
          decide (e.deltaY < 0) &&
            (getOverflowState s.scale s.translate vp s.svgDoc).canPanUp)) =
        false := by
      simp [hdy0]
    simp only [handleWheel, hc, Bool.false_eq_true, if_false]
    rw [hh, hv0]
    simp
  · rw [handleWheel_page_route vp now e s hc hdx hU hD hdy]
    by_cases hrange : (1 ≤ s.currentPage +
        (if 0 < s.pageChangeAccumulator + e.deltaY then 1 else -1) ∧
      s.currentPage + (if 0 < s.pageChangeAccumulator + e.deltaY then 1 else -1) ≤
        (s.svgDoc.map fun d => (d.pages.length : ℤ)).getD 1)
    · exact (pageTurn_cont_commit vp now e s (by simp [hdm]) hth hcd hrange).2.1
    · rw [pageTurn_cont_reject vp now e s (by simp [hdm]) hth hcd hrange]
  · rw [handleWheel_page_route vp now e s hc hdx hU hD hdy]
    simp only [pageTurn, hdm]
    split_ifs <;> simp

/-- Witness for C7: a vertical pan (deltaY = 10, down pan possible at scale
4) resets an accumulator of 15 to zero. -/
theorem claim_C7_w :
    (handleWheel ⟨200, 200⟩ 1000 ⟨0, 10, 0, false, 0, 0, 1⟩
        { initState with
          scale := 4,
          pageChangeAccumulator := 15,
          svgDoc := some ⟨["p"], 100, 100⟩ }).pageChangeAccumulator = 0 :=
  (claim_C7 ⟨200, 200⟩ 1000 ⟨0, 10, 0, false, 0, 0, 1⟩
      { initState with
        scale := 4,
        pageChangeAccumulator := 15,
        svgDoc := some ⟨["p"], 100, 100⟩ } rfl).1 (by norm_num)
    (Or.inl ⟨by norm_num,
      by norm_num [getOverflowState, initState, EDGE_PADDING]⟩)

/-! ## C8 -/

/-- C8 counterexample: a wheel pan arriving while an animation is scheduled
commits its pan (the translate changes) yet leaves the animation scheduled
(`zoomAnimationActive` stays true) — the in-flight animation is not
cancelled, contradicting the claim for directly-manipulating wheel pans. -/
theorem claim_C8_cex :
    (handleWheel ⟨200, 200⟩ 1000 ⟨10, 0, 0, false, 0, 0, 1⟩
        { initState with
          scale := 4,
          zoomAnimationActive := true,
          svgDoc := some ⟨["p"], 100, 100⟩ }).zoomAnimationActive = true ∧
    (handleWheel ⟨200, 200⟩ 1000 ⟨10, 0, 0, false, 0, 0, 1⟩
        { initState with
          scale := 4,
          zoomAnimationActive := true,
          svgDoc := some ⟨["p"], 100, 100⟩ }).translate ≠
      ({ initState with
          scale := 4,
          zoomAnimationActive := true,
          svgDoc := some (⟨["p"], 100, 100⟩ : SvgDocument) } :
        ViewerState).translate := by
  constructor <;>
    norm_num [handleWheel, pageTurn, getOverflowState, clampTranslate,
      initState, EDGE_PADDING, Vec2.mk.injEq, min_def, max_def]

/-- C8 (amended): only the ctrl-wheel zoom branch cancels an in-flight
animation before computing its delta; non-ctrl wheel events (pans and
page-turns) and pointer drag moves leave the scheduled animation untouched,
so a stale animation frame can later overwrite the state they committed. -/
theorem claim_C8 (vp : Viewport) (now : ℚ) (e : WheelEvent) (s : ViewerState)
    (dx dy : ℚ) :
    (e.ctrlKey = true →
      (handleWheel vp now e s).zoomAnimationActive = false) ∧
    (e.ctrlKey = false →
      (handleWheel vp now e s).zoomAnimationActive = s.zoomAnimationActive) ∧
    (handlePointerMove vp dx dy s).zoomAnimationActive =
      s.zoomAnimationActive := by
  refine ⟨fun hc => ?_, fun hc => ?_, rfl⟩
  · simp [handleWheel, hc]
  · simp only [handleWheel, hc, Bool.false_eq_true, if_false]
    split_ifs <;> first
      | rfl
      | exact (pageTurn_fields vp now e s).2.2.1

/-- Witness for C8: a ctrl-wheel event cancels the scheduled animation; a
pointer drag move from the same state does not. -/
theorem claim_C8_w :
    (handleWheel ⟨200, 200⟩ 0 ⟨0, -10, 0, true, 5, 5, 2⟩
        { initState with zoomAnimationActive := true }).zoomAnimationActive =
      false ∧
    (handlePointerMove ⟨200, 200⟩ 3 4
        { initState with zoomAnimationActive := true }).zoomAnimationActive =
      ({ initState with zoomAnimationActive := true } :
        ViewerState).zoomAnimationActive :=
  ⟨(claim_C8 ⟨200, 200⟩ 0 ⟨0, -10, 0, true, 5, 5, 2⟩
      { initState with zoomAnimationActive := true } 3 4).1 rfl,
   (claim_C8 ⟨200, 200⟩ 0 ⟨0, -10, 0, true, 5, 5, 2⟩
      { initState with zoomAnimationActive := true } 3 4).2.2⟩

/-! ## C9 -/

lemma stateNumPages_none {s : ViewerState} (h : s.svgDoc = none) :
    stateNumPages s = 0 := by simp [stateNumPages, h]

lemma stateNumPages_some {s : ViewerState} {dd : SvgDocument}
    (h : s.svgDoc = some dd) :
    stateNumPages s = dd.pages.length := by simp [stateNumPages, h]

/-- `handleWheel` never changes the document reference. -/
lemma handleWheel_svgDoc (vp : Viewport) (now : ℚ) (e : WheelEvent)
    (s : ViewerState) : (handleWheel vp now e s).svgDoc = s.svgDoc := by
  by_cases hc : e.ctrlKey
  · simp [handleWheel, hc]
  · simp only [handleWheel, hc, Bool.false_eq_true, if_false]
    split_ifs <;> first
      | rfl
      | exact (pageTurn_fields vp now e s).2.1

/-- `pageTurn` leaves the page unchanged or commits a page inside
[1, pages.length ?? 1]. -/
lemma pageTurn_page (vp : Viewport) (now : ℚ) (e : WheelEvent)
    (s : ViewerState) :
    (pageTurn vp now e s).currentPage = s.currentPage ∨
    (1 ≤ (pageTurn vp now e s).currentPage ∧
      (pageTurn vp now e s).currentPage ≤
        (s.svgDoc.map fun d => (d.pages.length : ℤ)).getD 1) := by
  rcases hsd : s.svgDoc with _ | dd <;>
    simp only [pageTurn, hsd] <;>
    split_ifs <;>
    simp_all <;>
    omega

/-- `handleWheel` leaves the page unchanged or commits a page inside
[1, pages.length ?? 1]. -/
lemma handleWheel_page (vp : Viewport) (now : ℚ) (e : WheelEvent)
    (s : ViewerState) :
    (handleWheel vp now e s).currentPage = s.currentPage ∨
    (1 ≤ (handleWheel vp now e s).currentPage ∧
      (handleWheel vp now e s).currentPage ≤
        (s.svgDoc.map fun d => (d.pages.length : ℤ)).getD 1) := by
  by_cases hc : e.ctrlKey
  · left
    simp [handleWheel, hc]
  · simp only [handleWheel, hc, Bool.false_eq_true, if_false]
    split_ifs <;> first
      | (left; rfl)
      | exact pageTurn_page vp now e s

/-- `fitToViewport` changes neither the page nor the document. -/
lemma fitToViewport_fields (vp : Viewport) (s : ViewerState) :
    (fitToViewport vp s).currentPage = s.currentPage ∧
    (fitToViewport vp s).svgDoc = s.svgDoc := by
  unfold fitToViewport
  cases getFitValues s.svgDoc vp <;> simp

/-- The document installed by `resetPageOnDocChange` is the new one. -/
lemma resetPage_svgDoc (s : ViewerState) (d : Option SvgDocument) :
    (resetPageOnDocChange s d).svgDoc = d := by
  simp only [resetPageOnDocChange]
  split_ifs <;> rfl

/-- One transition preserves the page invariant: all installed documents
are nonempty, the page is at least 1, and the page is at most the page
count when a document is present. -/
lemma step_inv (s s' : ViewerState) (hst : Step s s')
    (h1 : ∀ dd, s.svgDoc = some dd → dd.pages ≠ [])
    (h2 : 1 ≤ s.currentPage)
    (h3 : 1 ≤ stateNumPages s → s.currentPage ≤ stateNumPages s) :
    (∀ dd, s'.svgDoc = some dd → dd.pages ≠ []) ∧ 1 ≤ s'.currentPage ∧
    (1 ≤ stateNumPages s' → s'.currentPage ≤ stateNumPages s') := by
  cases hst with
  | wheel vp now e s =>
    have hdoc := handleWheel_svgDoc vp now e s
    have hN : stateNumPages (handleWheel vp now e s) = stateNumPages s := by
      simp [stateNumPages, hdoc]
    refine ⟨fun dd hd => h1 dd (hdoc ▸ hd), ?_, ?_⟩
    · rcases handleWheel_page vp now e s with hp | ⟨hp1, hp2⟩
      · rw [hp]; exact h2
      · exact hp1
    · intro hge
      rw [hN] at hge ⊢
      rcases handleWheel_page vp now e s with hp | ⟨hp1, hp2⟩
      · rw [hp]; exact h3 hge
      · rcases hsd : s.svgDoc with _ | dd
        · rw [stateNumPages_none hsd] at hge; omega
        · have hval : (s.svgDoc.map fun d => (d.pages.length : ℤ)).getD 1 =
              (dd.pages.length : ℤ) := by simp [hsd]
          rw [hval] at hp2
          rw [stateNumPages_some hsd]
          exact hp2
  | pointerMove vp dx dy s => exact ⟨h1, h2, h3⟩
  | prevPage s =>
    have hN : stateNumPages (goToPrevPage s) = stateNumPages s := by
      simp [stateNumPages, goToPrevPage]
    have hp : (goToPrevPage s).currentPage = max (s.currentPage - 1) 1 := rfl
    refine ⟨h1, le_max_right _ _, fun hge => ?_⟩
    rw [hN] at hge ⊢
    rw [hp]
    have := h3 hge
    omega
  | nextPage s =>
    have hN : stateNumPages (goToNextPage s) = stateNumPages s := by
      simp [stateNumPages, goToNextPage]
    have hp : (goToNextPage s).currentPage =
        min (s.currentPage + 1)
          ((s.svgDoc.map fun d => (d.pages.length : ℤ)).getD 1) := rfl
    rcases hsd : s.svgDoc with _ | dd
    · have hg : (s.svgDoc.map fun d => (d.pages.length : ℤ)).getD 1 = 1 := by
        simp [hsd]
      refine ⟨h1, ?_, fun hge => ?_⟩
      · rw [hp, hg]
        omega
      · rw [hN, stateNumPages_none hsd] at hge
        omega
    · have hlen : dd.pages ≠ [] := h1 dd hsd
      have hlen1 : 1 ≤ (dd.pages.length : ℤ) := by
        have := List.length_pos.mpr hlen
        omega
      have hg : (s.svgDoc.map fun d => (d.pages.length : ℤ)).getD 1 =
          (dd.pages.length : ℤ) := by
        simp [hsd]
      refine ⟨h1, ?_, fun hge => ?_⟩
      · rw [hp, hg]
        omega
      · rw [hN, stateNumPages_some hsd] at hge ⊢
        rw [hp, hg]
        omega
  | homeKey s =>
    have hN : stateNumPages (keyHome s) = stateNumPages s := by
      simp [stateNumPages, keyHome]
    refine ⟨h1, le_refl 1, fun hge => ?_⟩
    rw [hN] at hge ⊢
    simpa [keyHome] using hge
  | endKey s =>
    have hN : stateNumPages (keyEnd s) = stateNumPages s := by
      simp [stateNumPages, keyEnd]
    rcases hsd : s.svgDoc with _ | dd
    · refine ⟨h1, ?_, fun hge => ?_⟩
      · simp [keyEnd, hsd]
      · rw [hN, stateNumPages_none hsd] at hge
        omega
    · have hlen : dd.pages ≠ [] := h1 dd hsd
      have hlen1 : 1 ≤ (dd.pages.length : ℤ) := by
        have := List.length_pos.mpr hlen
        omega
      have hp : (keyEnd s).currentPage =
          (s.svgDoc.map fun d => (d.pages.length : ℤ)).getD 1 := rfl
      have hg : (s.svgDoc.map fun d => (d.pages.length : ℤ)).getD 1 =
          (dd.pages.length : ℤ) := by
        simp [hsd]
      refine ⟨h1, ?_, fun hge => ?_⟩
      · rw [hp, hg]
        omega
      · rw [hN, stateNumPages_some hsd] at hge ⊢
        rw [hp, hg]
  | fitApply vp s =>
    obtain ⟨hp, hd⟩ := fitToViewport_fields vp s
    have hN : stateNumPages (fitToViewport vp s) = stateNumPages s := by
      simp [stateNumPages, hd]
    exact ⟨fun dd hdd => h1 dd (hd ▸ hdd), hp ▸ h2,
      fun hge => by rw [hN] at hge ⊢; rw [hp]; exact h3 hge⟩
  | reclamp vp s => exact ⟨h1, h2, h3⟩
  | animCommit sc t s => exact ⟨h1, h2, h3⟩
  | docChange d s hd =>
    have hdoc := resetPage_svgDoc s d
    have hN : stateNumPages (resetPageOnDocChange s d) =
        (d.map fun dd => (dd.pages.length : ℤ)).getD 0 := by
      simp [stateNumPages, hdoc]
    refine ⟨fun dd hdd => hd dd (hdoc ▸ hdd), ?_, ?_⟩
    · simp only [resetPageOnDocChange]
      split_ifs <;> simp <;> omega
    · intro hge
      rw [hN] at hge ⊢
      simp only [resetPageOnDocChange]
      split_ifs with hcond
      · simpa using hge
      · have hle : s.currentPage ≤
            (d.map fun dd => (dd.pages.length : ℤ)).getD 0 := by
          by_contra hgt
          push_neg at hgt
          exact hcond ⟨by simpa using hgt, by omega⟩
        simpa using hle

/-- States reachable with nonempty documents satisfy the page invariant. -/
lemma reachable_inv (s : ViewerState) (h : Reachable s) :
    (∀ dd, s.svgDoc = some dd → dd.pages ≠ []) ∧ 1 ≤ s.currentPage ∧
    (1 ≤ stateNumPages s → s.currentPage ≤ stateNumPages s) := by
  unfold Reachable at h
  induction h with
  | refl =>
    refine ⟨by simp [initState], by simp [initState], ?_⟩
    rw [stateNumPages_none (by simp [initState] : initState.svgDoc = none)]
    omega
  | tail hab hbc ih => exact step_inv _ _ hbc ih.1 ih.2.1 ih.2.2

/-- C9 counterexample: the initial state (no document, so numPages = 0) is
reachable and has currentPage = 1, not 0 — the state variable never holds 0
when numPages = 0 (the UI merely displays 0). -/
theorem claim_C9_cex :
    Reachable initState ∧ stateNumPages initState = 0 ∧
    initState.currentPage = 1 ∧ (1 : ℤ) ≠ 0 :=
  ⟨Relation.ReflTransGen.refl, by simp [stateNumPages, initState], rfl,
    by decide⟩

/-- C9 (amended): for every state reachable while every supplied document
has at least one page, 1 ≤ currentPage always holds, and currentPage ≤
numPages whenever numPages ≥ 1; when numPages = 0 the page is at least 1
(it is 1 in the initial state), not 0. -/
theorem claim_C9 (s : ViewerState) (h : Reachable s) :
    1 ≤ s.currentPage ∧
    (1 ≤ stateNumPages s → s.currentPage ≤ stateNumPages s) :=
  ⟨(reachable_inv s h).2.1, (reachable_inv s h).2.2⟩

/-- Witness for C9 at the reachable initial state. -/
theorem claim_C9_w : 1 ≤ initState.currentPage :=
  (claim_C9 initState Relation.ReflTransGen.refl).1
